import Mathlib

/-
Verification development for the source-surf repository.

The repository contains a single script, `src/scripts/main.ts`, in two
near-duplicate revisions (the file holds both, one after the other).  The
script is a browser-side controller for a game-server status page: it polls
a status endpoint, renders status / player count / uptime / map into a card
layout, offers a "start server" button and a "connect via game client" icon.

This file gives a shallow embedding of both revisions:

* The DOM surface touched by the script is modelled as the record `Dom`
  (text contents, CSS class names, display styles, the start button, the
  map display).  `document.querySelector` hits are modelled as present, per
  the DOM contract the script assumes.
* The pure renderer functions (`updateServerState`, `updateConnectButton`,
  `updateStartButton`, `updateMapDisplay` of revision 1, and
  `updateServerInfo`, `updateStartButton`, `updateMapDisplay` of revision 2)
  become Lean functions `Dom → Dom`.
* The module-level mutable state of revision 1 (`isServerStarting`,
  `statusCheckSubscription$`, the set of live interval subscriptions, the
  in-flight fetches, the console log, the opened URIs) becomes the record
  `World`.  The event-loop callbacks (interval ticks, fetch resolutions,
  click handlers) become functions `World → World`, and the possible
  interleavings become the small-step relation `Step`.
* JS string truthiness (`payload?.map && ...`) is modelled explicitly as
  a non-empty-string test; `x ?? d` on a typed non-optional field reduces
  to the field when the enclosing object is present and to `d` otherwise.
-/

namespace SourceSurf

/-- The tri-state UI status, `type Status = 'online' | 'offline' | 'loading'`. -/
inductive Status where
  | online
  | offline
  | loading
deriving DecidableEq, BEq, Repr

/-- The string the script writes for each status value. -/
def Status.text : Status → String
  | .online => "online"
  | .offline => "offline"
  | .loading => "loading"

/-- `type ServerStatusResponse` of the source: the parsed status payload. -/
structure ServerStatusResponse where
  online : Bool
  name : String
  map : String
  playerCount : Nat
  maxPlayers : Nat
  players : List String
  uptime : String
deriving DecidableEq, Repr

/-- The `data-map-images` JSON lookup embedded in the map container's
data attribute: map name to image URL. -/
def MapEnv : Type := List (String × String)

/-- `mapImages[k]` object indexing. -/
def mapLookup (env : MapEnv) (k : String) : Option String :=
  List.lookup k env

/-- JS truthiness of a possibly-undefined string (`undefined` and `""` are falsy). -/
def truthy : Option String → Bool
  | some s => s ≠ ""
  | none => false

/-- JS `a || b` on possibly-undefined strings. -/
def jsOr (a b : Option String) : Option String :=
  if truthy a then a else b

/-- State of the map card: `[data-map-name]` text, `[data-map-image]` src and alt.
`mapImageSrc = none` models the `src` attribute holding the result of assigning
an undefined lookup. -/
structure MapDisplay where
  mapNameText : String
  mapImageSrc : Option String
  mapImageAlt : String
deriving DecidableEq, Repr

/-- State of `[data-start-button]` and its `[data-button-text]` label. -/
structure StartButton where
  disabled : Bool
  classes : List String
  dataStatus : String
  labelText : String
deriving DecidableEq, Repr

/-- The DOM surface the script mutates.  The three info cards' spinners share
one display value, as the script always writes them all identically. -/
structure Dom where
  statusText : String
  statusClass : String
  playersText : String
  playersClass : String
  uptimeText : String
  uptimeClass : String
  spinnersDisplay : String
  cardsDisplay : String
  mainLoadingClass : Bool
  mapDisplay : MapDisplay
  connectDisplay : String
  button : StartButton
deriving DecidableEq, Repr

/-- `classList.add`: appends the class when absent. -/
def classListAdd (c : String) (cs : List String) : List String :=
  if c ∈ cs then cs else cs ++ [c]

/-- `classList.remove('loading', 'online', 'offline')`. -/
def classListRemoveStates (cs : List String) : List String :=
  cs.filter (fun c => c ≠ "loading" && c ≠ "online" && c ≠ "offline")

namespace Rev1

/-- Revision 1 `updateMapDisplay` (src lines 165-186): writes the map name,
then assigns `mapImages[newMapName] || mapImages['default']` to the image
src and the map name to its alt, unconditionally. -/
def updateMapDisplay (env : MapEnv) (newMapName : String) (_m : MapDisplay) : MapDisplay :=
  let imageSrc := jsOr (mapLookup env newMapName) (mapLookup env "default")
  { mapNameText := newMapName, mapImageSrc := imageSrc, mapImageAlt := newMapName }

/-- Revision 1 `updateConnectButton` (src lines 111-127). -/
def updateConnectButton (status : Status) (d : Dom) : Dom :=
  match status with
  | .online => { d with connectDisplay := "block" }
  | .offline => { d with connectDisplay := "none" }
  | .loading => { d with connectDisplay := "none" }

/-- Revision 1 `updateStartButton` (src lines 129-163). -/
def updateStartButton (status : Status) (d : Dom) : Dom :=
  let b0 := { d.button with classes := classListRemoveStates d.button.classes }
  let b :=
    match status with
    | .offline =>
        { b0 with disabled := false, classes := classListAdd "offline" b0.classes,
                  dataStatus := "offline", labelText := "Start Server" }
    | .loading =>
        { b0 with disabled := true, classes := classListAdd "loading" b0.classes,
                  dataStatus := "loading", labelText := "Loading..." }
    | .online =>
        { b0 with disabled := true, classes := classListAdd "online" b0.classes,
                  dataStatus := "online", labelText := "Server Online" }
  { d with button := b }

/-- `payload?.playerCount ?? 0`. -/
def playerCountOf : Option ServerStatusResponse → Nat
  | some p => p.playerCount
  | none => 0

/-- `payload?.maxPlayers ?? 0`. -/
def maxPlayersOf : Option ServerStatusResponse → Nat
  | some p => p.maxPlayers
  | none => 0

/-- `payload?.uptime ?? 'Unknown'`. -/
def uptimeOf : Option ServerStatusResponse → String
  | some p => p.uptime
  | none => "Unknown"

/-- Revision 1 `updateServerState` (src lines 37-109).  Spinners / card
visibility / container class are written from `isLoading`; when not loading
the status, players and uptime cards get text and class, and the map display
is updated only under the guard
`payload?.map && payload.map !== 'Unknown' && payload.map !== 'loading'`. -/
def updateServerState (env : MapEnv) (status : Status)
    (payload : Option ServerStatusResponse) (d : Dom) : Dom :=
  let isLoading : Bool := decide (status = Status.loading)
  let d1 := { d with
    spinnersDisplay := if isLoading then "block" else "none",
    cardsDisplay := if isLoading then "none" else "block",
    mainLoadingClass := isLoading }
  let d2 :=
    if isLoading then d1
    else
      let da := { d1 with statusText := status.text, statusClass := status.text }
      let db := { da with
        playersText := toString (playerCountOf payload) ++ " / " ++ toString (maxPlayersOf payload),
        playersClass := status.text }
      let dc := { db with uptimeText := uptimeOf payload, uptimeClass := status.text }
      match payload with
      | some p =>
          if p.map ≠ "" ∧ p.map ≠ "Unknown" ∧ p.map ≠ "loading" then
            { dc with mapDisplay := updateMapDisplay env p.map dc.mapDisplay }
          else dc
      | none => dc
  updateStartButton status (updateConnectButton status d2)

end Rev1

/-- The kind of polling interval subscription: 60000 ms steady-state,
5000 ms during a start sequence. -/
inductive Timer where
  | normal
  | startup
deriving DecidableEq, Repr

/-- `const STATUS_CHECK_INTERVAL = 60000` (milliseconds). -/
def STATUS_CHECK_INTERVAL : Nat := 60000

/-- `const STARTUP_CHECK_INTERVAL = 5000` (milliseconds). -/
def STARTUP_CHECK_INTERVAL : Nat := 5000

/-- The fixed game-client URI opened by the connect icon click handler
(identical in both revisions, src lines 287 and 554). -/
def connectUrl : String := "steam://connect/20.163.60.236:27015/footwork"

/-- Module-level state of revision 1 together with the environment pieces
the claims observe:
* `isServerStarting` — the re-entrancy flag;
* `active` — the live interval subscriptions, as (id, kind) pairs
  (`interval(...).subscribe(...)` adds one; `unsubscribe` / stream
  completion removes it);
* `handle` — what `statusCheckSubscription$` currently points at;
* `nextId` — fresh-subscription counter;
* `pendUI` / `pendBG` — in-flight status fetches issued with
  `updateUI = true` / `updateUI = false`;
* `pendingStart` — in-flight start-endpoint fetches;
* `dom` — the rendered DOM;
* `log` — console output;
* `openedUrls` — URIs passed to `window.open`. -/
structure World where
  isServerStarting : Bool
  nextId : Nat
  active : List (Nat × Timer)
  handle : Option (Nat × Timer)
  pendUI : Nat
  pendBG : Nat
  pendingStart : Nat
  dom : Dom
  log : List String
  openedUrls : List String
deriving DecidableEq, Repr

/-- `startNormalPolling` (src lines 226-230): subscribes a fresh 60 s
interval and stores the subscription in `statusCheckSubscription$`. -/
def startNormalPolling (w : World) : World :=
  { w with active := (w.nextId, Timer.normal) :: w.active,
           handle := some (w.nextId, Timer.normal),
           nextId := w.nextId + 1 }

/-- The subscription part of `startStartupPolling` (src lines 232-243):
subscribes a fresh 5 s interval (whose per-tick and completion behaviour is
`startupTickFn`) and stores it in `statusCheckSubscription$`. -/
def startStartupPolling (w : World) : World :=
  { w with active := (w.nextId, Timer.startup) :: w.active,
           handle := some (w.nextId, Timer.startup),
           nextId := w.nextId + 1 }

/-- The synchronous part of revision 1 `checkServerStatus(updateUI)`
(src lines 191-196): render `loading` when no start sequence is in progress
and `updateUI` is set, then issue the status fetch (recorded in the matching
in-flight counter). -/
def checkServerStatusCall (env : MapEnv) (u : Bool) (w : World) : World :=
  let w1 :=
    if w.isServerStarting = false ∧ u = true then
      { w with dom := Rev1.updateServerState env Status.loading none w.dom }
    else w
  if u = true then { w1 with pendUI := w1.pendUI + 1 }
  else { w1 with pendBG := w1.pendBG + 1 }

/-- The `tap` handler of revision 1 `checkServerStatus` (src lines 205-213),
run when the status fetch resolved with an ok response whose body parsed:
an online payload is rendered unconditionally and clears the start flag; an
offline payload is rendered only when no start sequence is in progress and
the fetch was issued with `updateUI`. -/
def statusTap (env : MapEnv) (u : Bool) (data : ServerStatusResponse) (w : World) : World :=
  if data.online = true then
    { w with dom := Rev1.updateServerState env Status.online (some data) w.dom,
             isServerStarting := false }
  else if w.isServerStarting = false ∧ u = true then
    { w with dom := Rev1.updateServerState env Status.offline (some data) w.dom }
  else w

/-- The `catchError` handler of revision 1 `checkServerStatus`
(src lines 215-221), run on a rejected fetch, a non-ok response or a JSON
parse failure: render `offline` (with no payload) only under the same guard,
then clear the start flag.  It writes nothing to the console. -/
def statusCatch (env : MapEnv) (u : Bool) (w : World) : World :=
  if w.isServerStarting = false ∧ u = true then
    { w with dom := Rev1.updateServerState env Status.offline none w.dom,
             isServerStarting := false }
  else { w with isServerStarting := false }

/-- One emission of the startup-polling interval (src lines 233-242):
`tap` calls `checkServerStatus()` (no UI update), then
`takeWhile(() => isServerStarting, true)` keeps the stream alive while the
flag holds and otherwise completes it — closing the subscription and
running the `complete` handler, `startNormalPolling()`. -/
def startupTickFn (env : MapEnv) (s : Nat × Timer) (w : World) : World :=
  let w1 := checkServerStatusCall env false w
  if w1.isServerStarting = true then w1
  else startNormalPolling { w1 with active := w1.active.erase s }

/-- The start button click handler's synchronous part (src lines 250-258):
re-entrancy guard, set the flag, render `loading`, unsubscribe the current
polling subscription, issue the start-endpoint fetch. -/
def clickStart (env : MapEnv) (w : World) : World :=
  if w.isServerStarting = true then w
  else
    let w1 := { w with isServerStarting := true,
                       dom := Rev1.updateServerState env Status.loading none w.dom }
    let w2 :=
      match w1.handle with
      | some s => { w1 with active := w1.active.erase s }
      | none => w1
    { w2 with pendingStart := w2.pendingStart + 1 }

/-- The `tap` handler of the start fetch (src lines 268-271), run when the
start endpoint answered ok: log the response text and enter startup polling. -/
def startTap (t : String) (w : World) : World :=
  startStartupPolling { w with log := w.log ++ ["Server starting response: " ++ t] }

/-- The `catchError` handler of the start fetch (src lines 272-278): log the
error, clear the flag, set the start button (only) to its offline look, and
resume normal polling. -/
def startCatch (w : World) : World :=
  startNormalPolling
    { w with log := w.log ++ ["Error starting surf server:"],
             isServerStarting := false,
             dom := Rev1.updateStartButton Status.offline w.dom }

/-- The connect icon click handler (src lines 286-289): open the fixed
`steam://` URI. -/
def clickConnect (w : World) : World :=
  { w with openedUrls := w.openedUrls ++ [connectUrl] }

/-- The module initialisation of revision 1 (src lines 188-246) applied to a
page whose DOM starts as `d0`: flag cleared, no subscriptions, then
`checkServerStatus(true); startNormalPolling();`. -/
def initWorld (env : MapEnv) (d0 : Dom) : World :=
  startNormalPolling (checkServerStatusCall env true
    { isServerStarting := false, nextId := 0, active := [], handle := none,
      pendUI := 0, pendBG := 0, pendingStart := 0, dom := d0, log := [],
      openedUrls := [] })

/-- The event-loop small-step relation of revision 1.  A step is one
synchronous callback run to completion: an interval tick, the resolution of
an in-flight fetch (ok or failed), or a click handler.  `guarded` is a
side condition imposed on start-button clicks; `Step env False` is the
unrestricted system, `Step env True` restricts clicks to states with no
start fetch still pending. -/
inductive Step (env : MapEnv) (guarded : Prop) : World → World → Prop where
  | normalTick (w : World) (s : Nat × Timer) (hmem : s ∈ w.active)
      (hkind : s.2 = Timer.normal) :
      Step env guarded w (checkServerStatusCall env true w)
  | startupTick (w : World) (s : Nat × Timer) (hmem : s ∈ w.active)
      (hkind : s.2 = Timer.startup) :
      Step env guarded w (startupTickFn env s w)
  | statusOkUI (w : World) (data : ServerStatusResponse) (hp : 0 < w.pendUI) :
      Step env guarded w (statusTap env true data { w with pendUI := w.pendUI - 1 })
  | statusOkBG (w : World) (data : ServerStatusResponse) (hp : 0 < w.pendBG) :
      Step env guarded w (statusTap env false data { w with pendBG := w.pendBG - 1 })
  | statusFailUI (w : World) (hp : 0 < w.pendUI) :
      Step env guarded w (statusCatch env true { w with pendUI := w.pendUI - 1 })
  | statusFailBG (w : World) (hp : 0 < w.pendBG) :
      Step env guarded w (statusCatch env false { w with pendBG := w.pendBG - 1 })
  | clickStartButton (w : World) (hg : guarded → w.pendingStart = 0) :
      Step env guarded w (clickStart env w)
  | clickConnectIcon (w : World) :
      Step env guarded w (clickConnect w)
  | startOk (w : World) (t : String) (hp : 0 < w.pendingStart) :
      Step env guarded w (startTap t { w with pendingStart := w.pendingStart - 1 })
  | startFail (w : World) (hp : 0 < w.pendingStart) :
      Step env guarded w (startCatch { w with pendingStart := w.pendingStart - 1 })

namespace Rev2

/-- Revision 2 `updateMapDisplay` (src lines 431-456), DOM effect: writes
the map name, then sets the image src / alt only when the looked-up URL is
truthy.  The else branch's console effect (`console.warn`) is modelled by
`updateMapDisplayWarn`, and the world-level callers thread it into the
console log. -/
def updateMapDisplay (env : MapEnv) (newMapName : String) (m : MapDisplay) : MapDisplay :=
  let imageSrc := jsOr (mapLookup env newMapName) (mapLookup env "default")
  let m1 := { m with mapNameText := newMapName }
  if truthy imageSrc then { m1 with mapImageSrc := imageSrc, mapImageAlt := newMapName }
  else m1

/-- Revision 2 `updateMapDisplay` (src lines 431-456), console effect: the
else branch warns `No image found for map: <name>` exactly when neither the
map nor the default lookup is truthy (src lines 452-453). -/
def updateMapDisplayWarn (env : MapEnv) (newMapName : String) : List String :=
  let imageSrc := jsOr (mapLookup env newMapName) (mapLookup env "default")
  if truthy imageSrc then [] else ["No image found for map: " ++ newMapName]

/-- Revision 2 `updateStartButton` (src lines 395-429).  Identical to
revision 1 except the loading label reads "Starting...". -/
def updateStartButton (status : Status) (d : Dom) : Dom :=
  let b0 := { d.button with classes := classListRemoveStates d.button.classes }
  let b :=
    match status with
    | .offline =>
        { b0 with disabled := false, classes := classListAdd "offline" b0.classes,
                  dataStatus := "offline", labelText := "Start Server" }
    | .loading =>
        { b0 with disabled := true, classes := classListAdd "loading" b0.classes,
                  dataStatus := "loading", labelText := "Starting..." }
    | .online =>
        { b0 with disabled := true, classes := classListAdd "online" b0.classes,
                  dataStatus := "online", labelText := "Server Online" }
  { d with button := b }

/-- Revision 2 `updateServerInfo` (src lines 311-393): like revision 1
`updateServerState` but with the payload fields as separate parameters, the
connect icon handled inline, and a map guard that does not test truthiness
(`map !== 'Unknown' && map !== 'loading'`). -/
def updateServerInfo (env : MapEnv) (status : Status) (map : String)
    (players maxPlayers : Nat) (uptime : String) (d : Dom) : Dom :=
  let isLoading : Bool := decide (status = Status.loading)
  let d1 := { d with
    spinnersDisplay := if isLoading then "block" else "none",
    cardsDisplay := if isLoading then "none" else "block",
    mainLoadingClass := isLoading }
  let d2 :=
    if isLoading then d1
    else
      let da := { d1 with statusText := status.text, statusClass := status.text }
      let db := { da with
        playersText := toString players ++ " / " ++ toString maxPlayers,
        playersClass := status.text }
      let dc := { db with uptimeText := uptime, uptimeClass := status.text }
      if map ≠ "Unknown" ∧ map ≠ "loading" then
        { dc with mapDisplay := updateMapDisplay env map dc.mapDisplay }
      else dc
  let d3 := { d2 with connectDisplay :=
    match status with
    | .online => "block"
    | .offline => "none"
    | .loading => "none" }
  updateStartButton status d3

/-- Console effect of a revision 2 `updateServerInfo` call: exactly the map
display warning, emitted when the non-loading map branch runs
(src lines 359, 373-375) and `updateMapDisplay` finds no image. -/
def updateServerInfoLog (env : MapEnv) (status : Status) (map : String) : List String :=
  let isLoading : Bool := decide (status = Status.loading)
  if isLoading then []
  else if map ≠ "Unknown" ∧ map ≠ "loading" then updateMapDisplayWarn env map
  else []

/-- Module-level state of revision 2: the `isStartingServer` flag, the
in-flight fetch counters, the DOM, the console log and the opened URIs.
Revision 2 keeps no subscription handle (its 60 s interval is never
unsubscribed). -/
structure World where
  isStartingServer : Bool
  pendingStatus : Nat
  pendingStart : Nat
  dom : Dom
  log : List String
  openedUrls : List String
deriving DecidableEq, Repr

/-- The synchronous part of revision 2 `checkServerStatus` (src lines
460-468): log, skip entirely while a start sequence is in progress,
otherwise issue the status fetch.  No render happens here. -/
def checkServerStatusCall (w : World) : World :=
  let w1 := { w with log := w.log ++ ["Checking server status..."] }
  if w1.isStartingServer = true then
    { w1 with log := w1.log ++ ["Skipping status check - server is starting"] }
  else { w1 with pendingStatus := w1.pendingStatus + 1 }

/-- The first `tap` of revision 2 `checkServerStatus` (src lines 470-474),
run when the fetch response arrives: render `loading` only when no start
sequence is in progress (a loading render never reaches the map branch, so
its threaded console effect is empty). -/
def statusResponseTap (env : MapEnv) (w : World) : World :=
  if w.isStartingServer = false then
    { w with dom := updateServerInfo env Status.loading "Unknown" 0 0 "offline" w.dom,
             log := w.log ++ updateServerInfoLog env Status.loading "Unknown" }
  else w

/-- The data `tap` of revision 2 `checkServerStatus` (src lines 484-500):
when no start sequence is in progress, an online payload is rendered from
its fields, an offline payload as the fixed offline placeholders; each
render's console effect precedes the branch's own console.log line. -/
def statusTap (env : MapEnv) (data : ServerStatusResponse) (w : World) : World :=
  if w.isStartingServer = false then
    if data.online = true then
      { w with dom := updateServerInfo env
                 (if data.online = true then Status.online else Status.offline)
                 data.map data.playerCount data.maxPlayers data.uptime w.dom,
               log := w.log ++ updateServerInfoLog env
                   (if data.online = true then Status.online else Status.offline) data.map
                 ++ ["Server is online"] }
    else
      { w with dom := updateServerInfo env Status.offline "offline" 0 0 "offline" w.dom,
               log := w.log ++ updateServerInfoLog env Status.offline "offline"
                 ++ ["Server is offline"] }
  else w

/-- The `catchError` of revision 2 `checkServerStatus` (src lines 501-507):
log the error, and when no start sequence is in progress render the fixed
offline placeholders — whose map branch runs (the placeholder "offline"
passes the guard) and may warn about a missing map image. -/
def statusCatch (env : MapEnv) (w : World) : World :=
  let w1 := { w with log := w.log ++ ["Error fetching server status:"] }
  if w1.isStartingServer = false then
    { w1 with dom := updateServerInfo env Status.offline "offline" 0 0 "offline" w1.dom,
              log := w1.log ++ updateServerInfoLog env Status.offline "offline" }
  else w1

/-- The revision 2 start button click handler's synchronous part (src lines
520-524): no re-entrancy guard — it always sets the flag, renders the
loading placeholders (an empty console effect) and issues a start fetch. -/
def clickStart (env : MapEnv) (w : World) : World :=
  { w with isStartingServer := true,
           dom := updateServerInfo env Status.loading "loading" 0 0 "loading" w.dom,
           log := w.log ++ updateServerInfoLog env Status.loading "loading",
           pendingStart := w.pendingStart + 1 }

/-- The revision 2 connect icon click handler (src lines 553-556). -/
def clickConnect (w : World) : World :=
  { w with openedUrls := w.openedUrls ++ [connectUrl] }

end Rev2

/-- A concrete page-load DOM, used for concrete executions. -/
def dom0 : Dom :=
  { statusText := "loading", statusClass := "", playersText := "", playersClass := "",
    uptimeText := "", uptimeClass := "", spinnersDisplay := "block",
    cardsDisplay := "none", mainLoadingClass := false,
    mapDisplay := { mapNameText := "loading", mapImageSrc := none, mapImageAlt := "" },
    connectDisplay := "none",
    button := { disabled := true, classes := [], dataStatus := "loading",
                labelText := "Loading..." } }

/-- A concrete revision 1 world in which a start sequence is in progress
while a status fetch (issued with `updateUI = true`) is in flight, and the
UI currently shows "online". -/
def Wt : World :=
  { isServerStarting := true, nextId := 1, active := [(0, Timer.normal)],
    handle := some (0, Timer.normal), pendUI := 1, pendBG := 0, pendingStart := 0,
    dom := { dom0 with statusText := "online" }, log := [], openedUrls := [] }

/-- `Wt` with no start sequence in progress. -/
def Wf : World :=
  { Wt with isServerStarting := false }

/-- A concrete revision 2 world in which a start sequence is in progress. -/
def W2c : Rev2.World :=
  { isStartingServer := true, pendingStatus := 0, pendingStart := 0,
    dom := dom0, log := [], openedUrls := [] }

/-- A concrete online payload. -/
def P1 : ServerStatusResponse :=
  { online := true, name := "surf", map := "surf_utopia", playerCount := 3,
    maxPlayers := 32, players := ["a", "b", "c"], uptime := "2h" }

/-- The revision 1 world reached from page load by one start button click. -/
def W1c : World := clickStart [] (initWorld [] dom0)

/-- `W2c` with no start sequence in progress. -/
def W2f : Rev2.World :=
  { W2c with isStartingServer := false }

/-- Timer-subscription invariant of revision 1: at most one pending start
fetch, none while a timer subscription is live, and the live subscription
(when one exists) is unique and is the one `statusCheckSubscription$`
holds. -/
def TimerInv (w : World) : Prop :=
  w.pendingStart ≤ 1
  ∧ (w.pendingStart = 1 → w.active = [])
  ∧ (w.active = [] ∨ ∃ s, w.active = [s] ∧ w.handle = some s)

@[simp] lemma rev1_updateStartButton_statusText (s : Status) (d : Dom) :
    (Rev1.updateStartButton s d).statusText = d.statusText := by
  cases s <;> rfl

@[simp] lemma rev1_updateStartButton_playersText (s : Status) (d : Dom) :
    (Rev1.updateStartButton s d).playersText = d.playersText := by
  cases s <;> rfl

@[simp] lemma rev1_updateStartButton_uptimeText (s : Status) (d : Dom) :
    (Rev1.updateStartButton s d).uptimeText = d.uptimeText := by
  cases s <;> rfl

@[simp] lemma rev1_updateStartButton_spinnersDisplay (s : Status) (d : Dom) :
    (Rev1.updateStartButton s d).spinnersDisplay = d.spinnersDisplay := by
  cases s <;> rfl

@[simp] lemma rev1_updateStartButton_mapDisplay (s : Status) (d : Dom) :
    (Rev1.updateStartButton s d).mapDisplay = d.mapDisplay := by
  cases s <;> rfl

@[simp] lemma rev1_updateConnectButton_statusText (s : Status) (d : Dom) :
    (Rev1.updateConnectButton s d).statusText = d.statusText := by
  cases s <;> rfl

@[simp] lemma rev1_updateConnectButton_playersText (s : Status) (d : Dom) :
    (Rev1.updateConnectButton s d).playersText = d.playersText := by
  cases s <;> rfl

@[simp] lemma rev1_updateConnectButton_uptimeText (s : Status) (d : Dom) :
    (Rev1.updateConnectButton s d).uptimeText = d.uptimeText := by
  cases s <;> rfl

@[simp] lemma rev1_updateConnectButton_spinnersDisplay (s : Status) (d : Dom) :
    (Rev1.updateConnectButton s d).spinnersDisplay = d.spinnersDisplay := by
  cases s <;> rfl

@[simp] lemma rev1_updateConnectButton_mapDisplay (s : Status) (d : Dom) :
    (Rev1.updateConnectButton s d).mapDisplay = d.mapDisplay := by
  cases s <;> rfl

lemma rev1_online_render_fields (env : MapEnv) (p : ServerStatusResponse) (d : Dom) :
    (Rev1.updateServerState env Status.online (some p) d).statusText = "online"
    ∧ (Rev1.updateServerState env Status.online (some p) d).playersText =
        toString p.playerCount ++ " / " ++ toString p.maxPlayers
    ∧ (Rev1.updateServerState env Status.online (some p) d).uptimeText = p.uptime := by
  simp only [Rev1.updateServerState, Rev1.playerCountOf, Rev1.maxPlayersOf, Rev1.uptimeOf]
  split_ifs <;> simp_all [Status.text]

/-- C1: for every status payload with `online = true` that a revision 1
status poll successfully fetches and parses, the `tap` handler renders
status text "online", player count text "playerCount / maxPlayers" from the
payload, and the payload's uptime string. -/
theorem spec_c1_online_payload_render (env : MapEnv) (u : Bool)
    (data : ServerStatusResponse) (w : World) (h : data.online = true) :
    (statusTap env u data w).dom.statusText = "online"
    ∧ (statusTap env u data w).dom.playersText =
        toString data.playerCount ++ " / " ++ toString data.maxPlayers
    ∧ (statusTap env u data w).dom.uptimeText = data.uptime := by
  simp only [statusTap, h, if_pos]
  exact rev1_online_render_fields env data w.dom

/-- C1 witness: the concrete payload `P1` is online and renders as claimed. -/
theorem spec_c1_online_payload_render_witness :
    P1.online = true
    ∧ ((statusTap [] true P1 Wf).dom.statusText = "online"
       ∧ (statusTap [] true P1 Wf).dom.playersText =
           toString P1.playerCount ++ " / " ++ toString P1.maxPlayers
       ∧ (statusTap [] true P1 Wf).dom.uptimeText = P1.uptime) :=
  ⟨rfl, spec_c1_online_payload_render [] true P1 Wf rfl⟩

/-- C9: each click on the connect icon opens exactly the fixed
`steam://connect/<host>:<port>/<map>` URI built from the hardcoded address,
port and map string, in both revisions; the handlers take nothing from any
server response (they append the same constant from every state). -/
theorem spec_c9_connect_fixed_uri (w : World) (w2 : Rev2.World) :
    (clickConnect w).openedUrls = w.openedUrls ++ [connectUrl]
    ∧ (Rev2.clickConnect w2).openedUrls = w2.openedUrls ++ [connectUrl]
    ∧ connectUrl = "steam://connect/" ++ "20.163.60.236" ++ ":" ++ "27015" ++ "/" ++ "footwork" := by
  refine ⟨rfl, rfl, ?_⟩
  rfl

/-- C10: in both revisions `updateStartButton` enables the button exactly
for status "offline"; the label is "Start Server" for offline, "Server
Online" for online, and a loading label ("Loading..." in revision 1,
"Starting..." in revision 2) for loading; the `data-status` attribute
always equals the rendered status text. -/
theorem spec_c10_start_button_contract (s : Status) (d d2 : Dom) :
    ((Rev1.updateStartButton s d).button.disabled = false ↔ s = Status.offline)
    ∧ (Rev1.updateStartButton s d).button.dataStatus = s.text
    ∧ (Rev1.updateStartButton s d).button.labelText =
        (match s with
         | Status.offline => "Start Server"
         | Status.loading => "Loading..."
         | Status.online => "Server Online")
    ∧ ((Rev2.updateStartButton s d2).button.disabled = false ↔ s = Status.offline)
    ∧ (Rev2.updateStartButton s d2).button.dataStatus = s.text
    ∧ (Rev2.updateStartButton s d2).button.labelText =
        (match s with
         | Status.offline => "Start Server"
         | Status.loading => "Starting..."
         | Status.online => "Server Online") := by
  cases s <;> simp [Rev1.updateStartButton, Rev2.updateStartButton, Status.text]

/-- C5: in both revisions the map image / map name elements are mutated only
when the rendered map differs from the placeholders "Unknown" and "loading"
(and, in revision 1, is present and non-empty); for every render whose map
is a placeholder or absent — and for every loading render — the map display
is left unchanged.  Stated as an exact characterisation of the map display
after a render. -/
theorem spec_c5_map_placeholder_guard (env : MapEnv) (status : Status)
    (payload : Option ServerStatusResponse) (d : Dom) (m : String)
    (pl mx : Nat) (up : String) (d2 : Dom) :
    ((Rev1.updateServerState env status payload d).mapDisplay =
      match payload with
      | none => d.mapDisplay
      | some p =>
          if status ≠ Status.loading ∧ p.map ≠ "" ∧ p.map ≠ "Unknown" ∧ p.map ≠ "loading" then
            Rev1.updateMapDisplay env p.map d.mapDisplay
          else d.mapDisplay)
    ∧ ((Rev2.updateServerInfo env status m pl mx up d2).mapDisplay =
        if status ≠ Status.loading ∧ m ≠ "Unknown" ∧ m ≠ "loading" then
          Rev2.updateMapDisplay env m d2.mapDisplay
        else d2.mapDisplay) := by
  constructor
  · cases payload with
    | none => cases status <;> simp [Rev1.updateServerState]
    | some p =>
        cases status <;> simp [Rev1.updateServerState] <;> split_ifs <;> simp_all
  · cases status <;> simp [Rev2.updateServerInfo, Rev2.updateStartButton] <;>
      split_ifs <;> simp_all

/-- C7: while a start sequence is in progress no revision 1 status-poll
callback overwrites the UI: the pre-request `loading` render happens exactly
when no start sequence is in progress and the poll was invoked with
`updateUI`; an offline payload or a failed poll renders `offline` under the
same guard and otherwise leaves the DOM untouched; only an online payload is
rendered unconditionally.  In revision 2 the poll's entry point never
renders, and the loading render, both result renders and the failure render
are all guarded by the `isStartingServer` flag — during a start sequence
each of them leaves the DOM untouched.  Stated as exact equations for the
DOM after each callback of both revisions. -/
theorem spec_c7_no_conflicting_render_during_start (env : MapEnv) (u : Bool)
    (data : ServerStatusResponse) (w : World) (w2 : Rev2.World) :
    ((checkServerStatusCall env u w).dom =
      if w.isServerStarting = false ∧ u = true then
        Rev1.updateServerState env Status.loading none w.dom
      else w.dom)
    ∧ ((statusTap env u data w).dom =
      if data.online = true then Rev1.updateServerState env Status.online (some data) w.dom
      else if w.isServerStarting = false ∧ u = true then
        Rev1.updateServerState env Status.offline (some data) w.dom
      else w.dom)
    ∧ ((statusCatch env u w).dom =
      if w.isServerStarting = false ∧ u = true then
        Rev1.updateServerState env Status.offline none w.dom
      else w.dom)
    ∧ ((Rev2.checkServerStatusCall w2).dom = w2.dom)
    ∧ ((Rev2.statusResponseTap env w2).dom =
      if w2.isStartingServer = false then
        Rev2.updateServerInfo env Status.loading "Unknown" 0 0 "offline" w2.dom
      else w2.dom)
    ∧ ((Rev2.statusTap env data w2).dom =
      if w2.isStartingServer = false then
        (if data.online = true then
          Rev2.updateServerInfo env Status.online data.map data.playerCount
            data.maxPlayers data.uptime w2.dom
         else Rev2.updateServerInfo env Status.offline "offline" 0 0 "offline" w2.dom)
      else w2.dom)
    ∧ ((Rev2.statusCatch env w2).dom =
      if w2.isStartingServer = false then
        Rev2.updateServerInfo env Status.offline "offline" 0 0 "offline" w2.dom
      else w2.dom) := by
  refine ⟨?_, ?_, ?_, ?_, ?_, ?_, ?_⟩
  · simp only [checkServerStatusCall]
    split_ifs <;> rfl
  · simp only [statusTap]
    split_ifs <;> rfl
  · simp only [statusCatch]
    split_ifs <;> rfl
  · simp only [Rev2.checkServerStatusCall]
    split_ifs <;> rfl
  · simp only [Rev2.statusResponseTap]
    split_ifs <;> rfl
  · simp only [Rev2.statusTap]
    split_ifs <;> simp_all
  · simp only [Rev2.statusCatch]
    split_ifs <;> rfl

@[simp] lemma checkServerStatusCall_active (env : MapEnv) (u : Bool) (w : World) :
    (checkServerStatusCall env u w).active = w.active := by
  simp only [checkServerStatusCall]
  split_ifs <;> rfl

@[simp] lemma checkServerStatusCall_handle (env : MapEnv) (u : Bool) (w : World) :
    (checkServerStatusCall env u w).handle = w.handle := by
  simp only [checkServerStatusCall]
  split_ifs <;> rfl

@[simp] lemma checkServerStatusCall_nextId (env : MapEnv) (u : Bool) (w : World) :
    (checkServerStatusCall env u w).nextId = w.nextId := by
  simp only [checkServerStatusCall]
  split_ifs <;> rfl

@[simp] lemma checkServerStatusCall_pendingStart (env : MapEnv) (u : Bool) (w : World) :
    (checkServerStatusCall env u w).pendingStart = w.pendingStart := by
  simp only [checkServerStatusCall]
  split_ifs <;> rfl

@[simp] lemma checkServerStatusCall_isServerStarting (env : MapEnv) (u : Bool) (w : World) :
    (checkServerStatusCall env u w).isServerStarting = w.isServerStarting := by
  simp only [checkServerStatusCall]
  split_ifs <;> rfl

@[simp] lemma statusTap_active (env : MapEnv) (u : Bool) (data : ServerStatusResponse)
    (w : World) : (statusTap env u data w).active = w.active := by
  simp only [statusTap]
  split_ifs <;> rfl

@[simp] lemma statusTap_handle (env : MapEnv) (u : Bool) (data : ServerStatusResponse)
    (w : World) : (statusTap env u data w).handle = w.handle := by
  simp only [statusTap]
  split_ifs <;> rfl

@[simp] lemma statusTap_pendingStart (env : MapEnv) (u : Bool) (data : ServerStatusResponse)
    (w : World) : (statusTap env u data w).pendingStart = w.pendingStart := by
  simp only [statusTap]
  split_ifs <;> rfl

@[simp] lemma statusCatch_active (env : MapEnv) (u : Bool) (w : World) :
    (statusCatch env u w).active = w.active := by
  simp only [statusCatch]
  split_ifs <;> rfl

@[simp] lemma statusCatch_handle (env : MapEnv) (u : Bool) (w : World) :
    (statusCatch env u w).handle = w.handle := by
  simp only [statusCatch]
  split_ifs <;> rfl

@[simp] lemma statusCatch_pendingStart (env : MapEnv) (u : Bool) (w : World) :
    (statusCatch env u w).pendingStart = w.pendingStart := by
  simp only [statusCatch]
  split_ifs <;> rfl

/-- C6 (amended): when the start request fails, the handler clears the
in-progress flag, sets the start button — and only the start button — to
its offline appearance, and resumes one normal-interval polling
subscription; when it succeeds it subscribes the short-interval loop, which
keeps its subscription while the flag remains true and on the tick that
finds the flag cleared closes itself and resumes one normal-interval
subscription; an online status report clears the flag.  Stated as exact
equations on the revision 1 handlers. -/
theorem spec_c6_start_failure_and_fast_loop (env : MapEnv) (w : World)
    (s : Nat × Timer) (t : String) (u : Bool) (data : ServerStatusResponse) :
    ((startCatch w).isServerStarting = false)
    ∧ ((startCatch w).dom = Rev1.updateStartButton Status.offline w.dom)
    ∧ ((startCatch w).handle = some (w.nextId, Timer.normal))
    ∧ ((startCatch w).active = (w.nextId, Timer.normal) :: w.active)
    ∧ ((startTap t w).handle = some (w.nextId, Timer.startup))
    ∧ ((startTap t w).active = (w.nextId, Timer.startup) :: w.active)
    ∧ ((startTap t w).isServerStarting = w.isServerStarting)
    ∧ ((startupTickFn env s w).active =
        if w.isServerStarting = true then w.active
        else (w.nextId, Timer.normal) :: w.active.erase s)
    ∧ ((startupTickFn env s w).handle =
        if w.isServerStarting = true then w.handle
        else some (w.nextId, Timer.normal))
    ∧ ((statusTap env u data w).isServerStarting =
        if data.online = true then false else w.isServerStarting) := by
  refine ⟨rfl, rfl, rfl, rfl, rfl, rfl, rfl, ?_, ?_, ?_⟩
  · simp only [startupTickFn, checkServerStatusCall_isServerStarting,
      checkServerStatusCall_active, checkServerStatusCall_nextId, startNormalPolling]
    split_ifs with hf
    · simp [hf]
    · simp
  · simp only [startupTickFn, checkServerStatusCall_isServerStarting,
      checkServerStatusCall_handle, checkServerStatusCall_nextId, startNormalPolling]
    split_ifs with hf
    · simp [hf]
    · simp
  · simp only [statusTap]
    split_ifs <;> rfl

/-- C6 counterexample: applying the start-failure handler to the concrete
world reached by clicking start on page load does not render the offline
state — the spinners stay visible, whereas the offline render hides them,
so the resulting DOM differs from the claimed offline render. -/
theorem spec_c6_counterexample :
    (startCatch W1c).dom.spinnersDisplay = "block"
    ∧ (Rev1.updateServerState [] Status.offline none W1c.dom).spinnersDisplay = "none"
    ∧ (startCatch W1c).dom ≠ Rev1.updateServerState [] Status.offline none W1c.dom := by
  decide

/-- C2 (amended): when no start sequence is in progress and the poll was
issued with UI updates enabled, every failed revision 1 status fetch
(rejected promise, non-ok response or parse failure funnel into the same
handler) renders "offline" with player count "0 / 0", but writes nothing to
the console; revision 2's handler renders the same fallback and logs the
error line, followed by the missing-map-image warning its placeholder
render emits when the lookup has no image for "offline". -/
theorem spec_c2_failure_fallback (env : MapEnv) (w : World) (w2 : Rev2.World)
    (h : w.isServerStarting = false) (h2 : w2.isStartingServer = false) :
    (statusCatch env true w).dom.statusText = "offline"
    ∧ (statusCatch env true w).dom.playersText = "0 / 0"
    ∧ (statusCatch env true w).log = w.log
    ∧ (Rev2.statusCatch env w2).dom.statusText = "offline"
    ∧ (Rev2.statusCatch env w2).dom.playersText = "0 / 0"
    ∧ (Rev2.statusCatch env w2).log = w2.log ++ ["Error fetching server status:"]
        ++ Rev2.updateServerInfoLog env Status.offline "offline" := by
  simp only [statusCatch, Rev2.statusCatch]
  rw [if_pos (show w.isServerStarting = false ∧ True from ⟨h, trivial⟩), if_pos h2]
  exact ⟨rfl, rfl, rfl, rfl, rfl, rfl⟩

/-- C2 witness: the concrete worlds `Wf` and `W2f` have no start sequence in
progress, and the failure handlers behave as the amended claim states (at
the empty map lookup, revision 2's log gains the error line and the
missing-map-image warning). -/
theorem spec_c2_failure_fallback_witness :
    Wf.isServerStarting = false ∧ W2f.isStartingServer = false
    ∧ ((statusCatch [] true Wf).dom.statusText = "offline"
       ∧ (statusCatch [] true Wf).dom.playersText = "0 / 0"
       ∧ (statusCatch [] true Wf).log = Wf.log
       ∧ (Rev2.statusCatch [] W2f).dom.statusText = "offline"
       ∧ (Rev2.statusCatch [] W2f).dom.playersText = "0 / 0"
       ∧ (Rev2.statusCatch [] W2f).log = W2f.log ++ ["Error fetching server status:"]
           ++ Rev2.updateServerInfoLog [] Status.offline "offline") :=
  ⟨rfl, rfl, spec_c2_failure_fallback [] Wf W2f rfl rfl⟩

/-- C2 counterexample: in the concrete world `Wt` a start sequence is in
progress; a failed status fetch then neither renders the offline fallback
nor logs anything — the DOM and the console log are unchanged — refuting
the claim that every failed fetch falls back to "offline" and is logged. -/
theorem spec_c2_counterexample :
    Wt.isServerStarting = true
    ∧ (statusCatch [] true Wt).dom = Wt.dom
    ∧ (statusCatch [] true Wt).log = Wt.log
    ∧ (statusCatch [] true Wt).dom.statusText ≠ "offline" := by
  decide

/-- C3 (amended): when a status fetch throws (with no start sequence in
progress and, in revision 1, UI updates enabled), the UI shows "offline"
and "0 / 0"; the uptime card shows "Unknown" in revision 1 and "offline" in
revision 2. -/
theorem spec_c3_fetch_throws_render (env : MapEnv) (w : World) (w2 : Rev2.World)
    (h : w.isServerStarting = false) (h2 : w2.isStartingServer = false) :
    (statusCatch env true w).dom.statusText = "offline"
    ∧ (statusCatch env true w).dom.playersText = "0 / 0"
    ∧ (statusCatch env true w).dom.uptimeText = "Unknown"
    ∧ (Rev2.statusCatch env w2).dom.statusText = "offline"
    ∧ (Rev2.statusCatch env w2).dom.playersText = "0 / 0"
    ∧ (Rev2.statusCatch env w2).dom.uptimeText = "offline" := by
  simp only [statusCatch, Rev2.statusCatch]
  rw [if_pos (show w.isServerStarting = false ∧ True from ⟨h, trivial⟩), if_pos h2]
  exact ⟨rfl, rfl, rfl, rfl, rfl, rfl⟩

/-- C3 witness: the concrete worlds `Wf` and `W2f` satisfy the hypotheses,
and the handlers render as the amended claim states. -/
theorem spec_c3_fetch_throws_render_witness :
    Wf.isServerStarting = false ∧ W2f.isStartingServer = false
    ∧ ((statusCatch [] true Wf).dom.statusText = "offline"
       ∧ (statusCatch [] true Wf).dom.playersText = "0 / 0"
       ∧ (statusCatch [] true Wf).dom.uptimeText = "Unknown"
       ∧ (Rev2.statusCatch [] W2f).dom.statusText = "offline"
       ∧ (Rev2.statusCatch [] W2f).dom.playersText = "0 / 0"
       ∧ (Rev2.statusCatch [] W2f).dom.uptimeText = "offline") :=
  ⟨rfl, rfl, spec_c3_fetch_throws_render [] Wf W2f rfl rfl⟩

/-- C3 counterexample: in revision 1, at the concrete world `Wf` (no start
in progress), a thrown status fetch renders "offline" and "0 / 0" but the
uptime card reads "Unknown", not "offline" as claimed. -/
theorem spec_c3_counterexample :
    Wf.isServerStarting = false
    ∧ (statusCatch [] true Wf).dom.statusText = "offline"
    ∧ (statusCatch [] true Wf).dom.playersText = "0 / 0"
    ∧ (statusCatch [] true Wf).dom.uptimeText = "Unknown"
    ∧ (statusCatch [] true Wf).dom.uptimeText ≠ "offline" := by
  decide

/-- C4 (amended): in revision 1, clicking the start button while a start
sequence is in progress is a no-op (no state change, no request); the
revision 2 click handler has no re-entrancy guard and always re-renders the
loading placeholders and issues another start request. -/
theorem spec_c4_reentrancy_guard (env : MapEnv) (w : World) (w2 : Rev2.World)
    (h : w.isServerStarting = true) :
    clickStart env w = w
    ∧ (Rev2.clickStart env w2).pendingStart = w2.pendingStart + 1
    ∧ (Rev2.clickStart env w2).isStartingServer = true := by
  refine ⟨?_, rfl, rfl⟩
  simp [clickStart, h]

/-- C4 witness: in the concrete world `Wt` a start sequence is in progress
and the revision 1 click handler is a no-op there. -/
theorem spec_c4_reentrancy_guard_witness :
    Wt.isServerStarting = true
    ∧ (clickStart [] Wt = Wt
       ∧ (Rev2.clickStart [] W2c).pendingStart = W2c.pendingStart + 1
       ∧ (Rev2.clickStart [] W2c).isStartingServer = true) :=
  ⟨rfl, spec_c4_reentrancy_guard [] Wt W2c rfl⟩

/-- C4 counterexample: in the concrete revision 2 world `W2c` a start
sequence is already in progress, yet clicking start changes the state and
issues another start-endpoint request — the handler is not a no-op. -/
theorem spec_c4_counterexample :
    W2c.isStartingServer = true
    ∧ (Rev2.clickStart [] W2c).pendingStart = W2c.pendingStart + 1
    ∧ Rev2.clickStart [] W2c ≠ W2c := by
  decide

lemma initWorld_timerInv (env : MapEnv) (d0 : Dom) : TimerInv (initWorld env d0) := by
  refine ⟨?_, ?_, ?_⟩
  · simp [initWorld, startNormalPolling]
  · intro h
    simp [initWorld, startNormalPolling] at h
  · exact Or.inr ⟨((checkServerStatusCall env true
      { isServerStarting := false, nextId := 0, active := [], handle := none,
        pendUI := 0, pendBG := 0, pendingStart := 0, dom := d0, log := [],
        openedUrls := [] }).nextId, Timer.normal), by simp [initWorld, startNormalPolling], rfl⟩

lemma step_preserves_timerInv (env : MapEnv) {w w' : World}
    (hs : Step env True w w') (hi : TimerInv w) : TimerInv w' := by
  obtain ⟨h1, h2, h3⟩ := hi
  cases hs with
  | normalTick s hmem hkind =>
      exact ⟨by simpa using h1, by simpa using h2, by simpa using h3⟩
  | startupTick s hmem hkind =>
      unfold startupTickFn
      by_cases hf : (checkServerStatusCall env false w).isServerStarting = true
      · rw [if_pos hf]
        exact ⟨by simpa using h1, by simpa using h2, by simpa using h3⟩
      · rw [if_neg hf]
        have hactive : w.active ≠ [] := by
          intro hnil
          rw [hnil] at hmem
          exact (List.not_mem_nil s) hmem
        obtain ⟨s0, hs0, _⟩ := h3.resolve_left hactive
        have hss0 : s = s0 := by
          rw [hs0] at hmem
          simpa using hmem
        have hps : w.pendingStart = 0 := by
          rcases Nat.lt_or_ge w.pendingStart 1 with hlt | hge
          · omega
          · exact absurd (h2 (by omega)) (by rw [hs0]; simp)
        refine ⟨?_, ?_, ?_⟩
        · simp [startNormalPolling, hps]
        · intro hcontr
          simp [startNormalPolling, hps] at hcontr
        · refine Or.inr ⟨_, ?_, rfl⟩
          simp [startNormalPolling, hs0, hss0]
  | statusOkUI data hp =>
      exact ⟨by simpa using h1, by simpa using h2, by simpa using h3⟩
  | statusOkBG data hp =>
      exact ⟨by simpa using h1, by simpa using h2, by simpa using h3⟩
  | statusFailUI hp =>
      exact ⟨by simpa using h1, by simpa using h2, by simpa using h3⟩
  | statusFailBG hp =>
      exact ⟨by simpa using h1, by simpa using h2, by simpa using h3⟩
  | clickStartButton hg =>
      have hps : w.pendingStart = 0 := hg trivial
      unfold clickStart
      by_cases hf : w.isServerStarting = true
      · rw [if_pos hf]
        exact ⟨h1, h2, h3⟩
      · rw [if_neg hf]
        rcases h3 with hnil | ⟨s0, hs0, hh0⟩
        · cases hh : w.handle with
          | none => exact ⟨by simp [hps], fun _ => by simp [hnil], Or.inl (by simp [hnil])⟩
          | some s =>
              refine ⟨by simp [hps], fun _ => ?_, Or.inl ?_⟩ <;>
                simp [hh, hnil]
        · cases hh : w.handle with
          | none => rw [hh0] at hh; cases hh
          | some s =>
              have : s = s0 := by
                rw [hh0] at hh
                cases hh
                rfl
              subst this
              refine ⟨by simp [hps], fun _ => ?_, Or.inl ?_⟩ <;>
                simp [hh, hs0]
  | clickConnectIcon =>
      exact ⟨h1, h2, h3⟩
  | startOk t hp =>
      have hps : w.pendingStart = 1 := by omega
      have hnil : w.active = [] := h2 hps
      refine ⟨?_, ?_, Or.inr ⟨_, ?_, rfl⟩⟩
      · simp [startTap, startStartupPolling, hps]
      · simp [startTap, startStartupPolling, hps]
      · simp [startTap, startStartupPolling, hnil]
  | startFail hp =>
      have hps : w.pendingStart = 1 := by omega
      have hnil : w.active = [] := h2 hps
      refine ⟨?_, ?_, Or.inr ⟨_, ?_, rfl⟩⟩
      · simp [startCatch, startNormalPolling, hps]
      · simp [startCatch, startNormalPolling, hps]
      · simp [startCatch, startNormalPolling, hnil]

/-- C8 (amended): along every revision 1 execution in which the start button
is never clicked while a previous start request is still pending, every
reachable state has at most one live polling interval subscription; the
steady-state interval is 60000 ms and the start-sequence interval 5000 ms.
(Without that restriction the invariant fails: a failed status poll clears
the in-progress flag mid-start, an overlapping second click becomes
possible, and two startup subscriptions can end up live — see the
counterexample.) -/
theorem spec_c8_single_timer (env : MapEnv) (d0 : Dom) (w : World)
    (h : Relation.ReflTransGen (Step env True) (initWorld env d0) w) :
    w.active.length ≤ 1
    ∧ STATUS_CHECK_INTERVAL = 60000
    ∧ STARTUP_CHECK_INTERVAL = 5000 := by
  have hinv : TimerInv w := by
    induction h with
    | refl => exact initWorld_timerInv env d0
    | tail hab hbc ih => exact step_preserves_timerInv env hbc ih
  refine ⟨?_, rfl, rfl⟩
  rcases hinv.2.2 with hnil | ⟨s, hs, _⟩
  · simp [hnil]
  · simp [hs]

/-- C8 witness: the page-load state is reachable and satisfies the bound. -/
theorem spec_c8_single_timer_witness :
    (initWorld [] dom0).active.length ≤ 1
    ∧ STATUS_CHECK_INTERVAL = 60000
    ∧ STARTUP_CHECK_INTERVAL = 5000 :=
  spec_c8_single_timer [] dom0 (initWorld [] dom0) Relation.ReflTransGen.refl

/-- C8 counterexample: in the unrestricted system a reachable state has two
live polling subscriptions.  Trace from page load: click start (unsubscribes
the normal timer, start fetch #1 pending); the page-load status fetch fails,
whose handler clears the in-progress flag; click start again (start fetch #2
pending); both start fetches resolve ok, each subscribing its own startup
interval — two live subscriptions, refuting the claimed invariant. -/
theorem spec_c8_counterexample :
    ∃ w : World,
      Relation.ReflTransGen (Step ([] : MapEnv) False) (initWorld [] dom0) w
      ∧ w.active.length = 2 := by
  exact ⟨_,
    Relation.ReflTransGen.tail
      (Relation.ReflTransGen.tail
        (Relation.ReflTransGen.tail
          (Relation.ReflTransGen.tail
            (Relation.ReflTransGen.tail Relation.ReflTransGen.refl
              (Step.clickStartButton _ (fun hFalse => hFalse.elim)))
            (Step.statusFailUI _ (by decide)))
          (Step.clickStartButton _ (fun hFalse => hFalse.elim)))
        (Step.startOk _ "started" (by decide)))
      (Step.startOk _ "started" (by decide)),
    by decide⟩

end SourceSurf
